import Mathlib

set_option maxHeartbeats 1000000

/-!
Verification of the Team-management issue-history aggregation and
performance-scoring engine (`src/modules/jira/jira.service.ts`).

Modelling conventions:
* JS numbers are modelled as rationals (`ℚ`) for the derived metrics and as
  `Nat` for the integer counters that the code only ever increments; with
  rationals there is no `NaN`, so the scorer's `isNaN` clamps (which can
  never fire on the guarded divisions) are omitted.
* Mongoose documents become plain structures; the per-account
  `issueHistory` array becomes a `List IssueHistoryEntry`, and
  `find`-then-mutate-or-`push` becomes structural recursion that updates
  the first entry with a matching date or appends a new one.
* Optional JSON fields become `Option`; JS falsiness of the empty string is
  modelled explicitly where the code relies on it.
-/

namespace TeamManagement

/-- Per-type issue counters (`IssueCount` in the user schema). -/
structure IssueCount where
  Task : Nat
  Bug : Nat
  Story : Nat
deriving Repr, DecidableEq

def IssueCount.zero : IssueCount := ⟨0, 0, 0⟩

/-- An issue snapshot stored in a history entry (`Issue` in the user schema):
identifier, summary, status name, issue-type name and (possibly absent)
due date. -/
structure Issue where
  issueId : String
  summary : String
  status : String
  issueType : String
  dueDate : Option String
deriving Repr, DecidableEq

/-- The `issuesCount` of a history entry.  Either mode's counters may be absent
until the corresponding pass has run; reads default absent counters to
zero, matching the schema's per-field `default: 0`. -/
structure IssuesCount where
  notDone : Option IssueCount
  done : Option IssueCount
deriving Repr, DecidableEq

/-- One `IssueHistoryEntry` of a user's `issueHistory`, keyed by `date`.
The derived fields default to `0` rates and an empty comment, matching the
schema defaults for a freshly pushed entry. -/
structure IssueHistoryEntry where
  date : String
  issuesCount : IssuesCount
  notDoneIssues : List Issue := []
  doneIssues : List Issue := []
  codeToBugRatio : Option ℚ := none
  taskCompletionRate : ℚ := 0
  userStoryCompletionRate : ℚ := 0
  overallScore : ℚ := 0
  comment : String := ""
deriving Repr, DecidableEq

/-- Function `saveNotDoneIssueCounts` (jira.service.ts lines 366-400), restricted to
its effect on one user's `issueHistory` list: the first entry whose `date`
matches is overwritten in its not-done fields only, otherwise a new entry
holding only the not-done fields is pushed at the end. -/
def saveNotDoneIssueCounts (date : String) (counts : IssueCount)
    (issues : List Issue) :
    List IssueHistoryEntry → List IssueHistoryEntry
  | [] =>
    [{ date := date
       issuesCount := { notDone := some counts, done := none }
       notDoneIssues := issues }]
  | e :: es =>
    if e.date = date then
      { e with
        issuesCount := { e.issuesCount with notDone := some counts }
        notDoneIssues := issues } :: es
    else
      e :: saveNotDoneIssueCounts date counts issues es

/-- Function `saveDoneIssueCounts` (jira.service.ts lines 402-439): as above but for
the done fields, which include `codeToBugRatio`. -/
def saveDoneIssueCounts (date : String) (counts : IssueCount)
    (issues : List Issue) (ratio : ℚ) :
    List IssueHistoryEntry → List IssueHistoryEntry
  | [] =>
    [{ date := date
       issuesCount := { notDone := none, done := some counts }
       doneIssues := issues
       codeToBugRatio := some ratio }]
  | e :: es =>
    if e.date = date then
      { e with
        issuesCount := { e.issuesCount with done := some counts }
        doneIssues := issues
        codeToBugRatio := some ratio } :: es
    else
      e :: saveDoneIssueCounts date counts issues ratio es

/-- The not-done-mode fields of an entry, as one tuple. -/
def notDoneFields (e : IssueHistoryEntry) : Option IssueCount × List Issue :=
  (e.issuesCount.notDone, e.notDoneIssues)

/-- The done-mode fields of an entry, as one tuple. -/
def doneFields (e : IssueHistoryEntry) :
    Option IssueCount × List Issue × Option ℚ :=
  (e.issuesCount.done, e.doneIssues, e.codeToBugRatio)

/-- An entry's not-done counters as the scorer reads them
(`counts.notDone.Task` etc.; absent counters read as the schema default 0). -/
def notDoneOf (e : IssueHistoryEntry) : IssueCount :=
  e.issuesCount.notDone.getD IssueCount.zero

/-- An entry's done counters as the scorer reads them. -/
def doneOf (e : IssueHistoryEntry) : IssueCount :=
  e.issuesCount.done.getD IssueCount.zero

/-- The overshoot comment of `getAllUserMetrics` (line 746):
`Your target was T, but you completed D.` -/
def overshootMsg (target completed : Nat) : String :=
  "Your target was " ++ toString target ++ ", but you completed " ++
    toString completed ++ "."

/-- The mismatch sentence appended by `getAllUserMetrics` (line 762),
including its leading space. -/
def mismatchMsg (count : Nat) : String :=
  " " ++ toString count ++
    " task(s) that you completed do not match with your targeted task(s)."

/-- The `unmatchedDoneIssueIds` of `getAllUserMetrics` (lines 750-758): the done
issue ids that do not occur among the not-done issue ids. -/
def unmatchedDoneIds (e : IssueHistoryEntry) : List String :=
  (e.doneIssues.map (fun i => i.issueId)).filter
    (fun i => decide (¬ i ∈ e.notDoneIssues.map (fun j => j.issueId)))

/-- The comment as it stands after the overshoot check and before the
mismatch check (lines 739-747): the overshoot message when done totals
strictly exceed not-done totals, otherwise the initial empty string. -/
def overshootComment (e : IssueHistoryEntry) : String :=
  if (notDoneOf e).Task + (notDoneOf e).Bug + (notDoneOf e).Story <
      (doneOf e).Task + (doneOf e).Bug + (doneOf e).Story then
    overshootMsg ((notDoneOf e).Task + (notDoneOf e).Bug + (notDoneOf e).Story)
      ((doneOf e).Task + (doneOf e).Bug + (doneOf e).Story)
  else ""

/-- The per-entry body of `getAllUserMetrics` (jira.service.ts lines
714-794): completion rates, overshoot rule, mismatch rule, overall score.
The source sets the two rates and the comment inside a single overshoot
`if`; here the identical condition guards each of the three assignments.
The `isNaN` clamps of lines 782-788 are omitted: every division is guarded
by a positive denominator, so no `NaN` can arise over `ℚ`. -/
def scoreEntry (entry : IssueHistoryEntry) : IssueHistoryEntry :=
  let nd := notDoneOf entry
  let dn := doneOf entry
  let totalNotDoneTasksAndBugs := nd.Task + nd.Bug
  let totalDoneTasksAndBugs := dn.Task + dn.Bug
  let taskCompletionRate : ℚ :=
    if 0 < totalNotDoneTasksAndBugs then
      ((totalDoneTasksAndBugs : ℚ) / (totalNotDoneTasksAndBugs : ℚ)) * 100
    else 0
  let userStoryCompletionRate : ℚ :=
    if 0 < nd.Story then ((dn.Story : ℚ) / (nd.Story : ℚ)) * 100 else 0
  let taskCompletionRate' : ℚ :=
    if totalNotDoneTasksAndBugs + nd.Story < totalDoneTasksAndBugs + dn.Story
      then 100 else taskCompletionRate
  let userStoryCompletionRate' : ℚ :=
    if totalNotDoneTasksAndBugs + nd.Story < totalDoneTasksAndBugs + dn.Story
      then 100 else userStoryCompletionRate
  let comment := overshootComment entry
  let comment' :=
    if 0 < (unmatchedDoneIds entry).length then
      comment ++ mismatchMsg (unmatchedDoneIds entry).length
    else comment
  let nonZeroCompletionRates : List ℚ :=
    (if 0 < totalNotDoneTasksAndBugs then [taskCompletionRate'] else []) ++
    (if 0 < nd.Story then [userStoryCompletionRate'] else [])
  let overallScore : ℚ :=
    if 0 < nonZeroCompletionRates.length then
      nonZeroCompletionRates.sum / (nonZeroCompletionRates.length : ℚ)
    else 0
  { entry with
    taskCompletionRate := taskCompletionRate'
    userStoryCompletionRate := userStoryCompletionRate'
    overallScore := overallScore
    comment := comment' }

/-- The `fields.issuetype.name` of an `inwardIssue`/`outwardIssue` link
target. -/
structure LinkTarget where
  issuetype : String
deriving Repr, DecidableEq

/-- One element of `fields.issuelinks`: the relation name (`type.name`)
and the optional `outwardIssue`/`inwardIssue` targets. -/
structure IssueLink where
  typeName : String
  outwardIssue : Option LinkTarget
  inwardIssue : Option LinkTarget
deriving Repr, DecidableEq

/-- A raw issue as returned by the tracker search endpoint, restricted to
the fields the service consumes.  A missing `issuelinks` array is
identified with the empty list (the code reads it as
`issue.fields.issuelinks || []`). -/
structure JiraIssue where
  id : String
  summary : String
  statusName : String
  issuetypeName : String
  duedate : Option String
  issuelinks : List IssueLink := []
deriving Repr, DecidableEq

/-- Models `issue.fields.duedate?.split('T')[0]` together with the JS truthiness
test `if (dueDate)`: the date key is the part of the timestamp before the
first `T`, and an absent due date (or one whose date component is empty)
yields no key. -/
def dueKey (duedate : Option String) : Option String :=
  match duedate with
  | none => none
  | some s =>
    let d := (s.toList.takeWhile (fun c => c != 'T')).asString
    if d = "" then none else some d

/-- Models `issue.fields.duedate || null`: the raw due date stored in 30-day
snapshots, with the empty string collapsed to null. -/
def jsDateOrNull (duedate : Option String) : Option String :=
  match duedate with
  | none => none
  | some s => if s = "" then none else some s

/-- The snapshot pushed by the 30-day passes (raw `duedate` value). -/
def snapshot30 (i : JiraIssue) : Issue :=
  { issueId := i.id, summary := i.summary, status := i.statusName,
    issueType := i.issuetypeName, dueDate := jsDateOrNull i.duedate }

/-- The snapshot pushed by the today passes (truncated date key). -/
def snapshotToday (i : JiraIssue) (d : String) : Issue :=
  { issueId := i.id, summary := i.summary, status := i.statusName,
    issueType := i.issuetypeName, dueDate := some d }

/-- The if/else-if chain incrementing exactly one of the three recognized
type counters and ignoring any other issue type. -/
def incrementType (c : IssueCount) (t : String) : IssueCount :=
  if t = "Task" then { c with Task := c.Task + 1 }
  else if t = "Bug" then { c with Bug := c.Bug + 1 }
  else if t = "Story" then { c with Story := c.Story + 1 }
  else c

/-- Holds for the three recognized issue types. -/
def recognizedType (t : String) : Bool :=
  t == "Task" || t == "Bug" || t == "Story"

/-- Update the bucket stored under `key` in an insertion-ordered bucket
list, starting from `empty` when the key is new (the object-map idiom
`if (!countsByDate[dueDate]) countsByDate[dueDate] = init; ...` with
non-integer string keys, whose `Object.entries` order is insertion
order). -/
def upsertBucket {β : Type} (key : String) (f : β → β) (empty : β) :
    List (String × β) → List (String × β)
  | [] => [(key, f empty)]
  | (k, b) :: rest =>
    if k = key then (k, f b) :: rest
    else (k, b) :: upsertBucket key f empty rest

/-- First-match lookup in a bucket list. -/
def lkp {β : Type} (key : String) : List (String × β) → Option β
  | [] => none
  | (k, b) :: rest => if k = key then some b else lkp key rest

/-- Per-date state of `countNotDoneIssues` (and
`countNotDoneIssuesForToday`): the `countsByDate` and `issuesByDate`
maps fused into one bucket per date. -/
structure NotDoneBucket where
  counts : IssueCount
  issues : List Issue
deriving Repr, DecidableEq

/-- One iteration of the `notDoneIssues.forEach` loop of
`countNotDoneIssues` (jira.service.ts lines 219-249): an issue without a
due-date key contributes nothing; otherwise its date bucket gets the type
counter incremented (recognized types only) and the snapshot appended. -/
def notDoneStep (acc : List (String × NotDoneBucket)) (i : JiraIssue) :
    List (String × NotDoneBucket) :=
  match dueKey i.duedate with
  | none => acc
  | some d =>
    upsertBucket d
      (fun b =>
        { counts := incrementType b.counts i.issuetypeName
          issues := b.issues ++ [snapshot30 i] })
      ⟨IssueCount.zero, []⟩ acc

/-- The classification performed by `countNotDoneIssues` on the combined
issue list of both shards: the per-date counts and snapshot lists that the
pass then upserts. -/
def countNotDoneIssues (issues : List JiraIssue) :
    List (String × NotDoneBucket) :=
  issues.foldl notDoneStep []

/-- Per-date state of `countDoneIssues`: counts, snapshots and the
`bugLinksByDate` counter. -/
structure DoneBucket where
  counts : IssueCount
  issues : List Issue
  bugLinks : Nat
deriving Repr, DecidableEq

/-- A link on which `countDoneIssues` evaluates
`link.outwardIssue.fields.issuetype.name` while `link.outwardIssue` is
absent, which throws a `TypeError` at run time: relation name `Blocks`
with no outward target. -/
def linkAccessThrows (link : IssueLink) : Bool :=
  link.typeName == "Blocks" && link.outwardIssue.isNone

/-- A link that increments `bugLinksByDate`: relation name `Blocks` whose
outward target is a Bug. -/
def isBlocksBugLink (link : IssueLink) : Bool :=
  link.typeName == "Blocks" &&
    (match link.outwardIssue with
     | some t => t.issuetype == "Bug"
     | none => false)

/-- One iteration of the `doneIssues.forEach` loop of `countDoneIssues`
(jira.service.ts lines 298-341), in the run where no link access throws. -/
def doneStep (acc : List (String × DoneBucket)) (i : JiraIssue) :
    List (String × DoneBucket) :=
  match dueKey i.duedate with
  | none => acc
  | some d =>
    upsertBucket d
      (fun b =>
        { counts := incrementType b.counts i.issuetypeName
          issues := b.issues ++ [snapshot30 i]
          bugLinks := b.bugLinks + (i.issuelinks.filter isBlocksBugLink).length })
      ⟨IssueCount.zero, [], 0⟩ acc

/-- The 30-day done pass `countDoneIssues` on the combined issue list,
up to the per-date saves: per-date counts, snapshots and
`codeToBugRatio = bugLinks/(Task+Story)` (0 on a zero denominator).
The whole pass is wrapped in a try/catch rethrowing
`InternalServerErrorException('Error fetching done issues from Jira')`,
so if any processed issue carries a `Blocks` link without an
`outwardIssue` (an unguarded `link.outwardIssue.fields` dereference,
reached only for issues with a due-date key) nothing at all is counted or
saved and that single error is the outcome; this is modelled as the
`Except.error` branch. -/
def countDoneIssues (issues : List JiraIssue) :
    Except String (List (String × DoneBucket × ℚ)) :=
  if issues.any (fun i =>
      (dueKey i.duedate).isSome && i.issuelinks.any linkAccessThrows) then
    .error "Error fetching done issues from Jira"
  else
    .ok ((issues.foldl doneStep []).map (fun p =>
      (p.1, p.2,
        if 0 < p.2.counts.Task + p.2.counts.Story then
          (p.2.bugLinks : ℚ) / ((p.2.counts.Task + p.2.counts.Story : ℕ) : ℚ)
        else 0)))

/-- A link counted by the today variant: either the outward or the inward
target is a Bug (`link.outwardIssue?.fields.issuetype.name === 'Bug' ||
link.inwardIssue?.fields.issuetype.name === 'Bug'`). -/
def hasBugEnd (link : IssueLink) : Bool :=
  (match link.outwardIssue with
   | some t => t.issuetype == "Bug"
   | none => false) ||
  (match link.inwardIssue with
   | some t => t.issuetype == "Bug"
   | none => false)

/-- Per-date counters of `countDoneIssuesForToday`, including the
`LinkedBugs` counter. -/
structure TodayCounts where
  Task : Nat
  Bug : Nat
  Story : Nat
  LinkedBugs : Nat
deriving Repr, DecidableEq

def TodayCounts.zero : TodayCounts := ⟨0, 0, 0, 0⟩

/-- The if/else-if chain of the today pass on its four-field counters. -/
def incrementTodayType (c : TodayCounts) (t : String) : TodayCounts :=
  if t = "Task" then { c with Task := c.Task + 1 }
  else if t = "Bug" then { c with Bug := c.Bug + 1 }
  else if t = "Story" then { c with Story := c.Story + 1 }
  else c

/-- Per-date state of `countDoneIssuesForToday`. -/
structure TodayBucket where
  counts : TodayCounts
  issues : List Issue
deriving Repr, DecidableEq

/-- One iteration of the `for (const issue of doneIssues)` loop of
`countDoneIssuesForToday` (jira.service.ts lines 549-594): type counter,
`LinkedBugs += ` the number of links with a Bug on either end, snapshot. -/
def todayDoneStep (acc : List (String × TodayBucket)) (i : JiraIssue) :
    List (String × TodayBucket) :=
  match dueKey i.duedate with
  | none => acc
  | some d =>
    upsertBucket d
      (fun b =>
        { counts :=
            { incrementTodayType b.counts i.issuetypeName with
              LinkedBugs := (incrementTodayType b.counts i.issuetypeName).LinkedBugs +
                (i.issuelinks.filter hasBugEnd).length }
          issues := b.issues ++ [snapshotToday i d] })
      ⟨TodayCounts.zero, []⟩ acc

/-- The `tasksWithLinkedBugs.length` of `countDoneIssuesForToday` (lines
598-609): the number of done issues of type Task or Story carrying at
least one link with a Bug on either end, computed over the WHOLE combined
`doneIssues` list (the filter has no per-date condition). -/
def tasksWithLinkedBugsCount (issues : List JiraIssue) : Nat :=
  (issues.filter (fun i =>
    (i.issuetypeName == "Task" || i.issuetypeName == "Story") &&
      i.issuelinks.any hasBugEnd)).length

/-- Models `parseFloat(x.toFixed(2))`: rounding to two decimal places, modelled
as exact rational rounding of `100 x` to the nearest integer. -/
def roundTo2 (q : ℚ) : ℚ := ((round (q * 100) : ℤ) : ℚ) / 100

/-- The today-only done pass `countDoneIssuesForToday` up to the per-date
saves: per-date counters, snapshots and the saved
`bugToTaskStoryRatio = round(LinkedBugs(date)/taskAndStoryCount, 2)`,
`0` when `taskAndStoryCount` is `0`.  `taskAndStoryCount` is
`tasksWithLinkedBugsCount` of the whole list, not of the date. -/
def countDoneIssuesForToday (issues : List JiraIssue) :
    List (String × TodayCounts × List Issue × ℚ) :=
  (issues.foldl todayDoneStep []).map (fun p =>
    (p.1, p.2.counts, p.2.issues,
      if 0 < tasksWithLinkedBugsCount issues then
        roundTo2 ((p.2.counts.LinkedBugs : ℚ) /
          ((tasksWithLinkedBugsCount issues : ℕ) : ℚ))
      else 0))

/-- The per-date linked-bug total as the C3 claim states it: the number of
Bug-ended links summed over the done issues OF THAT DATE. -/
def perDateLinkedBugs (issues : List JiraIssue) (date : String) : Nat :=
  ((issues.filter (fun i => dueKey i.duedate == some date)).map
    (fun i => (i.issuelinks.filter hasBugEnd).length)).sum

/-- The per-date task-and-story count exactly as the C3 claim words it
(reference definition following the spec, for comparison with the code):
done issues OF THAT DATE, of type Task or Story, having at least one
Bug-ended link. -/
def claimTaskAndStoryCount (issues : List JiraIssue) (date : String) : Nat :=
  (issues.filter (fun i =>
    dueKey i.duedate == some date &&
      (i.issuetypeName == "Task" || i.issuetypeName == "Story") &&
      i.issuelinks.any hasBugEnd)).length

/-- The sum of the three per-type counters of one bucket. -/
def bucketTotal (c : IssueCount) : Nat := c.Task + c.Bug + c.Story

/-- Total of all per-type counters over a not-done classification. -/
def sumNotDoneCounts (l : List (String × NotDoneBucket)) : Nat :=
  (l.map (fun p => bucketTotal p.2.counts)).sum

/-- Total of all per-type counters over a 30-day done classification. -/
def sumDoneCounts (l : List (String × DoneBucket × ℚ)) : Nat :=
  (l.map (fun p => bucketTotal p.2.1.counts)).sum

/-- Total of all per-type counters over a list of done buckets (before
the ratio projection). -/
def sumDoneBuckets (l : List (String × DoneBucket)) : Nat :=
  (l.map (fun p => bucketTotal p.2.counts)).sum

/-- An issue that increments some counter: recognized type and a due-date
key. -/
def countedIssue (i : JiraIssue) : Bool :=
  recognizedType i.issuetypeName && (dueKey i.duedate).isSome

/-- The `LinkedBugs` counter of an optional today bucket, 0 when absent. -/
def lbOf (o : Option TodayBucket) : Nat :=
  match o with
  | some b => b.counts.LinkedBugs
  | none => 0

/-- One shard's HTTP answer to the user-detail request: payload on
success, otherwise the response status when the error carries a response
(`none` for transport errors without a response object). -/
inductive ShardResponse (α : Type) where
  | ok (data : α)
  | err (status : Option Nat)
deriving Repr, DecidableEq

/-- The outcome of `getUserDetails`: the payload, or one of the three
thrown exception kinds. -/
inductive FetchOutcome (α : Type) where
  | ok (data : α)
  | badRequest (msg : String)
  | notFound (msg : String)
  | internalError (msg : String)
deriving Repr, DecidableEq

/-- Function `getUserDetails` (jira.service.ts lines 61-107) as a function of the
two shards' responses.  Shard A's response decides everything except in
its 404 case, in which shard B's response is consulted; the value is
independent of `response2` in every other case, which renders "shard B is
never queried" in a pure embedding. -/
def getUserDetails {α : Type} (response1 response2 : ShardResponse α) :
    FetchOutcome α :=
  match response1 with
  | .ok d => .ok d
  | .err s =>
    if s = some 404 then
      match response2 with
      | .ok d => .ok d
      | .err s2 =>
        if s2 = some 400 then .badRequest "Invalid accountId"
        else if s2 = some 404 then .notFound "User not found on both URLs"
        else .internalError
          "Error fetching user details from the second Jira URL"
    else if s = some 400 then .badRequest "Invalid accountId"
    else .internalError
      "Error fetching user details from the first Jira URL"

/-- A done Task on 2024-10-01 whose only link has a Bug at its inward end
(a `Relates` link, so the 30-day pass ignores it but the today pass
counts it). -/
def c3IssueA : JiraIssue :=
  { id := "A", summary := "a", statusName := "Done", issuetypeName := "Task",
    duedate := some "2024-10-01",
    issuelinks := [{ typeName := "Relates", outwardIssue := none,
                     inwardIssue := some ⟨"Bug"⟩ }] }

/-- As `c3IssueA` but due 2024-10-02. -/
def c3IssueB : JiraIssue :=
  { id := "B", summary := "b", statusName := "Done", issuetypeName := "Task",
    duedate := some "2024-10-02",
    issuelinks := [{ typeName := "Relates", outwardIssue := none,
                     inwardIssue := some ⟨"Bug"⟩ }] }

/-- A combined done list spanning two due dates, one bug-linked Task
each. -/
def c3List : List JiraIssue := [c3IssueA, c3IssueB]

/-- The today bucket computed for 2024-10-01 from `c3List`. -/
def c3BucketA : TodayBucket :=
  ⟨⟨1, 0, 0, 1⟩, [snapshotToday c3IssueA "2024-10-01"]⟩

/-- The ratio the today pass stores for 2024-10-01 of `c3List`: the
date's one linked bug divided by the list-wide task-and-story count. -/
def c3StoredRatio : ℚ :=
  if 0 < tasksWithLinkedBugsCount c3List then
    roundTo2 (((1 : ℕ) : ℚ) / ((tasksWithLinkedBugsCount c3List : ℕ) : ℚ))
  else 0

/-- A done Task whose only link is a `Blocks` link with no `outwardIssue`
(its Bug sits at the inward end), the shape on which `countDoneIssues`
dereferences `undefined`. -/
def c4BadIssue : JiraIssue :=
  { id := "10", summary := "t", statusName := "Done",
    issuetypeName := "Task", duedate := some "2024-10-01",
    issuelinks := [{ typeName := "Blocks", outwardIssue := none,
                     inwardIssue := some ⟨"Bug"⟩ }] }

/-- A done Bug carrying a `Blocks` link whose outward target is not a Bug
and a non-`Blocks` link whose outward target is a Bug: neither increments
the 30-day bug-link counter. -/
def c4OkIssue : JiraIssue :=
  { id := "11", summary := "u", statusName := "Done",
    issuetypeName := "Bug", duedate := some "2024-10-01",
    issuelinks :=
      [{ typeName := "Blocks", outwardIssue := some ⟨"Task"⟩,
         inwardIssue := none },
       { typeName := "Relates", outwardIssue := some ⟨"Bug"⟩,
         inwardIssue := none }] }

/-- A done Bug due 2024-10-01 with no links. -/
def c7Bug : JiraIssue :=
  { id := "B1", summary := "b", statusName := "Done",
    issuetypeName := "Bug", duedate := some "2024-10-01", issuelinks := [] }

/-- A done issue of unrecognized type `Epic` due 2024-10-01. -/
def c7Epic : JiraIssue :=
  { id := "E1", summary := "e", statusName := "Done",
    issuetypeName := "Epic", duedate := some "2024-10-01", issuelinks := [] }

/-- A done Task with no due date. -/
def c7NoDue : JiraIssue :=
  { id := "N1", summary := "n", statusName := "Done",
    issuetypeName := "Task", duedate := none, issuelinks := [] }

/-- A combined list with one counted issue (the Bug), one snapshot-only
issue (the Epic) and one date-less issue. -/
def c7List : List JiraIssue := [c7Bug, c7Epic, c7NoDue]

/-- The 30-day done classification of `c7List`. -/
def c7Res : List (String × DoneBucket × ℚ) :=
  [("2024-10-01", ⟨⟨0, 1, 0⟩, [snapshot30 c7Bug, snapshot30 c7Epic], 0⟩, 0)]

/-- The spec's concrete scoring scenario:
`notDone = {Task:4, Bug:1, Story:2}`, `done = {Task:3, Bug:1, Story:1}`. -/
def c1Entry : IssueHistoryEntry :=
  { date := "2024-10-01"
    issuesCount := { notDone := some ⟨4, 1, 2⟩, done := some ⟨3, 1, 1⟩ } }

/-- The spec's overshoot scenario:
`notDone = {Task:1, Bug:0, Story:0}`, `done = {Task:2, Bug:0, Story:0}`. -/
def c2Entry : IssueHistoryEntry :=
  { date := "2024-10-02"
    issuesCount := { notDone := some ⟨1, 0, 0⟩, done := some ⟨2, 0, 0⟩ } }

/-- Equal done and not-done totals: `notDone = {4,1,2}`, `done = {5,1,1}`
(both total 7, task-and-bug quotient 6/5). -/
def c2EqEntry : IssueHistoryEntry :=
  { date := "2024-10-03"
    issuesCount := { notDone := some ⟨4, 1, 2⟩, done := some ⟨5, 1, 1⟩ } }

/-- A date where only done work was recorded: zero not-done counters and
one completed task. -/
def c10Entry : IssueHistoryEntry :=
  { date := "2024-10-04"
    issuesCount := { notDone := some ⟨0, 0, 0⟩, done := some ⟨1, 0, 0⟩ } }

/-- An entry whose single done issue id `B` does not occur among its
not-done issue ids (`A`): exactly one unmatched completion. -/
def c6Entry : IssueHistoryEntry :=
  { date := "2024-10-05"
    issuesCount := { notDone := some ⟨1, 0, 0⟩, done := some ⟨1, 0, 0⟩ }
    notDoneIssues :=
      [{ issueId := "A", summary := "a", status := "To Do",
         issueType := "Task", dueDate := some "2024-10-05" }]
    doneIssues :=
      [{ issueId := "B", summary := "b", status := "Done",
         issueType := "Task", dueDate := some "2024-10-05" }] }

/-- C5: a done-mode upsert leaves every pre-existing entry's not-done
counts and `notDoneIssues` unchanged, and a not-done-mode upsert leaves
every pre-existing entry's done counts, `doneIssues` and `codeToBugRatio`
unchanged: the first `h.length` entries of the result (i.e. all entries
that already existed) project to the same other-mode fields as before. -/
theorem upsert_non_interference_c5 (h : List IssueHistoryEntry)
    (date : String) (counts : IssueCount) (issues : List Issue) (ratio : ℚ) :
    (((saveDoneIssueCounts date counts issues ratio h).map notDoneFields).take
        h.length = h.map notDoneFields) ∧
    (((saveNotDoneIssueCounts date counts issues h).map doneFields).take
        h.length = h.map doneFields) := by
  induction h with
  | nil => simp [saveDoneIssueCounts, saveNotDoneIssueCounts]
  | cons e es ih =>
    constructor
    · by_cases he : e.date = date <;>
        simp [saveDoneIssueCounts, he, notDoneFields, ih.1]
    · by_cases he : e.date = date <;>
        simp [saveNotDoneIssueCounts, he, doneFields, ih.2]

/-- C9: applying the same upsert twice in succession (either mode, any
arguments and any starting history) yields the same stored history as
applying it once. -/
theorem upsert_idempotent_c9 (h : List IssueHistoryEntry)
    (date : String) (counts : IssueCount) (issues : List Issue) (ratio : ℚ) :
    (saveDoneIssueCounts date counts issues ratio
        (saveDoneIssueCounts date counts issues ratio h) =
      saveDoneIssueCounts date counts issues ratio h) ∧
    (saveNotDoneIssueCounts date counts issues
        (saveNotDoneIssueCounts date counts issues h) =
      saveNotDoneIssueCounts date counts issues h) := by
  induction h with
  | nil => simp [saveDoneIssueCounts, saveNotDoneIssueCounts]
  | cons e es ih =>
    constructor
    · by_cases he : e.date = date <;>
        simp [saveDoneIssueCounts, he, ih.1]
    · by_cases he : e.date = date <;>
        simp [saveNotDoneIssueCounts, he, ih.2]

/-- C1: absent the overshoot case, the scorer stores
`taskCompletionRate = (done.Task+done.Bug)/(notDone.Task+notDone.Bug)*100`
when that denominator is positive and `0` otherwise,
`userStoryCompletionRate = done.Story/notDone.Story*100` when
`notDone.Story` is positive and `0` otherwise, and `overallScore` is the
arithmetic mean of exactly those stored rates whose denominator was
positive, `0` when neither was. -/
theorem scorer_rates_c1 (e : IssueHistoryEntry)
    (hno : (doneOf e).Task + (doneOf e).Bug + (doneOf e).Story ≤
      (notDoneOf e).Task + (notDoneOf e).Bug + (notDoneOf e).Story) :
    ((scoreEntry e).taskCompletionRate =
      if 0 < (notDoneOf e).Task + (notDoneOf e).Bug then
        (((doneOf e).Task + (doneOf e).Bug : ℕ) : ℚ) /
          (((notDoneOf e).Task + (notDoneOf e).Bug : ℕ) : ℚ) * 100
      else 0) ∧
    ((scoreEntry e).userStoryCompletionRate =
      if 0 < (notDoneOf e).Story then
        (((doneOf e).Story : ℕ) : ℚ) / (((notDoneOf e).Story : ℕ) : ℚ) * 100
      else 0) ∧
    ((scoreEntry e).overallScore =
      if 0 < (notDoneOf e).Task + (notDoneOf e).Bug then
        if 0 < (notDoneOf e).Story then
          ((scoreEntry e).taskCompletionRate +
            (scoreEntry e).userStoryCompletionRate) / 2
        else (scoreEntry e).taskCompletionRate
      else if 0 < (notDoneOf e).Story then
        (scoreEntry e).userStoryCompletionRate
      else 0) := by
  have hov : ¬ ((notDoneOf e).Task + (notDoneOf e).Bug + (notDoneOf e).Story <
      (doneOf e).Task + (doneOf e).Bug + (doneOf e).Story) := by omega
  refine ⟨?_, ?_, ?_⟩
  · simp [scoreEntry, hov]
  · simp [scoreEntry, hov]
  · by_cases h1 : 0 < (notDoneOf e).Task + (notDoneOf e).Bug <;>
      by_cases h2 : 0 < (notDoneOf e).Story <;>
        simp [scoreEntry, hov, h1, h2]

/-- C1 witness: the spec's concrete scenario
`notDone = {Task:4, Bug:1, Story:2}`, `done = {Task:3, Bug:1, Story:1}`
yields rates 80 and 50 and overall score 65. -/
theorem scorer_rates_c1_witness :
    ((doneOf c1Entry).Task + (doneOf c1Entry).Bug + (doneOf c1Entry).Story ≤
      (notDoneOf c1Entry).Task + (notDoneOf c1Entry).Bug +
        (notDoneOf c1Entry).Story) ∧
    (scoreEntry c1Entry).taskCompletionRate = 80 ∧
    (scoreEntry c1Entry).userStoryCompletionRate = 50 ∧
    (scoreEntry c1Entry).overallScore = 65 := by
  have h := scorer_rates_c1 c1Entry (by decide)
  have e1 : notDoneOf c1Entry = ⟨4, 1, 2⟩ := rfl
  have e2 : doneOf c1Entry = ⟨3, 1, 1⟩ := rfl
  refine ⟨by decide, ?_, ?_, ?_⟩
  · rw [h.1, e1, e2]; norm_num
  · rw [h.2.1, e1, e2]; norm_num
  · rw [h.2.2, h.1, h.2.1, e1, e2]; norm_num

/-- C2: the overshoot rule fires exactly on strict inequality of the done
and not-done totals: when `done.Task+done.Bug+done.Story` strictly exceeds
`notDone.Task+notDone.Bug+notDone.Story` both stored rates are forced to
100 and the comment reports target versus actual totals; otherwise (in
particular for equal totals) the stored rates are the unforced quotient
formulas. -/
theorem scorer_overshoot_c2 (e : IssueHistoryEntry) :
    ((notDoneOf e).Task + (notDoneOf e).Bug + (notDoneOf e).Story <
        (doneOf e).Task + (doneOf e).Bug + (doneOf e).Story →
      (scoreEntry e).taskCompletionRate = 100 ∧
      (scoreEntry e).userStoryCompletionRate = 100 ∧
      ∃ rest, (scoreEntry e).comment =
        overshootMsg
          ((notDoneOf e).Task + (notDoneOf e).Bug + (notDoneOf e).Story)
          ((doneOf e).Task + (doneOf e).Bug + (doneOf e).Story) ++ rest) ∧
    ((doneOf e).Task + (doneOf e).Bug + (doneOf e).Story ≤
        (notDoneOf e).Task + (notDoneOf e).Bug + (notDoneOf e).Story →
      ((scoreEntry e).taskCompletionRate =
        if 0 < (notDoneOf e).Task + (notDoneOf e).Bug then
          (((doneOf e).Task + (doneOf e).Bug : ℕ) : ℚ) /
            (((notDoneOf e).Task + (notDoneOf e).Bug : ℕ) : ℚ) * 100
        else 0) ∧
      ((scoreEntry e).userStoryCompletionRate =
        if 0 < (notDoneOf e).Story then
          (((doneOf e).Story : ℕ) : ℚ) / (((notDoneOf e).Story : ℕ) : ℚ) * 100
        else 0)) := by
  constructor
  · intro h
    refine ⟨by simp [scoreEntry, h], by simp [scoreEntry, h], ?_⟩
    by_cases hm : 0 < (unmatchedDoneIds e).length
    · exact ⟨mismatchMsg (unmatchedDoneIds e).length,
        by simp [scoreEntry, overshootComment, h, hm]⟩
    · exact ⟨"", by simp [scoreEntry, overshootComment, h, hm,
        String.append_empty]⟩
  · intro h
    have hov : ¬ ((notDoneOf e).Task + (notDoneOf e).Bug +
        (notDoneOf e).Story <
        (doneOf e).Task + (doneOf e).Bug + (doneOf e).Story) := by omega
    exact ⟨by simp [scoreEntry, hov], by simp [scoreEntry, hov]⟩

/-- C2 witness: with `notDone = {1,0,0}`, `done = {2,0,0}` the overshoot
rule fires (rates 100, comment reports target 1 versus actual 2); with
`notDone = {4,1,2}`, `done = {5,1,1}` the totals are equal (7) and the
task rate stays at its quotient value 120 rather than being forced. -/
theorem scorer_overshoot_c2_witness :
    ((notDoneOf c2Entry).Task + (notDoneOf c2Entry).Bug +
        (notDoneOf c2Entry).Story <
      (doneOf c2Entry).Task + (doneOf c2Entry).Bug +
        (doneOf c2Entry).Story) ∧
    (scoreEntry c2Entry).taskCompletionRate = 100 ∧
    (∃ rest, (scoreEntry c2Entry).comment = overshootMsg 1 2 ++ rest) ∧
    ((doneOf c2EqEntry).Task + (doneOf c2EqEntry).Bug +
        (doneOf c2EqEntry).Story =
      (notDoneOf c2EqEntry).Task + (notDoneOf c2EqEntry).Bug +
        (notDoneOf c2EqEntry).Story) ∧
    (scoreEntry c2EqEntry).taskCompletionRate = 120 := by
  have h1 := (scorer_overshoot_c2 c2Entry).1 (by decide)
  have h2 := (scorer_overshoot_c2 c2EqEntry).2 (by decide)
  refine ⟨by decide, h1.1, ?_, by decide, ?_⟩
  · obtain ⟨rest, hrest⟩ := h1.2.2
    exact ⟨rest, by rw [hrest]; rfl⟩
  · rw [h2.1]
    have e1 : notDoneOf c2EqEntry = ⟨4, 1, 2⟩ := rfl
    have e2 : doneOf c2EqEntry = ⟨5, 1, 1⟩ := rfl
    rw [e1, e2]; norm_num

/-- C10: when an entry's not-done counters are all zero but done work was
counted, the overshoot rule forces both stored rates to 100 while the
overall score stays 0, because neither rate's denominator was positive so
neither contributes to the applicable-rate average. -/
theorem scorer_forced_rates_excluded_c10 (e : IssueHistoryEntry)
    (h1 : (notDoneOf e).Task + (notDoneOf e).Bug = 0)
    (h2 : (notDoneOf e).Story = 0)
    (h3 : 0 < (doneOf e).Task + (doneOf e).Bug + (doneOf e).Story) :
    (scoreEntry e).taskCompletionRate = 100 ∧
    (scoreEntry e).userStoryCompletionRate = 100 ∧
    (scoreEntry e).overallScore = 0 := by
  have hov : (notDoneOf e).Task + (notDoneOf e).Bug + (notDoneOf e).Story <
      (doneOf e).Task + (doneOf e).Bug + (doneOf e).Story := by omega
  refine ⟨by simp [scoreEntry, hov], by simp [scoreEntry, hov], ?_⟩
  have hz1 : ¬ (0 < (notDoneOf e).Task + (notDoneOf e).Bug) := by omega
  have hz2 : ¬ (0 < (notDoneOf e).Story) := by omega
  simp [scoreEntry, hz1, hz2]

/-- C10 witness: `notDone = {0,0,0}`, `done = {1,0,0}` stores rates 100
and 100 and overall score 0. -/
theorem scorer_forced_rates_excluded_c10_witness :
    ((notDoneOf c10Entry).Task + (notDoneOf c10Entry).Bug = 0) ∧
    ((notDoneOf c10Entry).Story = 0) ∧
    (0 < (doneOf c10Entry).Task + (doneOf c10Entry).Bug +
      (doneOf c10Entry).Story) ∧
    ((scoreEntry c10Entry).taskCompletionRate = 100 ∧
     (scoreEntry c10Entry).userStoryCompletionRate = 100 ∧
     (scoreEntry c10Entry).overallScore = 0) :=
  ⟨by decide, by decide, by decide,
    scorer_forced_rates_excluded_c10 c10Entry (by decide) (by decide)
      (by decide)⟩

/-- C6: the scorer appends the unmatched-completions sentence exactly when
some done issue id is absent from the not-done ids; the appended sentence
reports the number of unmatched done ids, and the rest of the comment is
the overshoot part. -/
theorem scorer_mismatch_c6 (e : IssueHistoryEntry) :
    (unmatchedDoneIds e ≠ [] ↔
      ∃ i ∈ e.doneIssues,
        i.issueId ∉ e.notDoneIssues.map (fun j => j.issueId)) ∧
    (unmatchedDoneIds e ≠ [] →
      (scoreEntry e).comment =
        overshootComment e ++ mismatchMsg (unmatchedDoneIds e).length) ∧
    (unmatchedDoneIds e = [] →
      (scoreEntry e).comment = overshootComment e) := by
  refine ⟨?_, ?_, ?_⟩
  · simp only [unmatchedDoneIds, ne_eq, List.filter_eq_nil_iff,
      List.mem_map, decide_not, Bool.not_eq_eq_eq_not, Bool.not_true,
      decide_eq_false_iff_not, not_not, not_forall]
    constructor
    · rintro ⟨x, ⟨⟨i, hi, rfl⟩, hx⟩⟩
      exact ⟨i, hi, by simpa using hx⟩
    · rintro ⟨i, hi, hni⟩
      exact ⟨i.issueId, ⟨⟨i, hi, rfl⟩, by simpa using hni⟩⟩
  · intro hne
    have hm : 0 < (unmatchedDoneIds e).length := by
      cases h : unmatchedDoneIds e with
      | nil => exact absurd h hne
      | cons a l => simp [h]
    simp [scoreEntry, hm]
  · intro hnil
    simp [scoreEntry, hnil, String.append_empty]

/-- C6 witness: one done issue id `B` absent from the not-done ids yields
a comment reporting exactly one unmatched completion. -/
theorem scorer_mismatch_c6_witness :
    unmatchedDoneIds c6Entry ≠ [] ∧
    (unmatchedDoneIds c6Entry).length = 1 ∧
    (scoreEntry c6Entry).comment =
      overshootComment c6Entry ++ mismatchMsg (unmatchedDoneIds c6Entry).length :=
  ⟨by decide, by decide, (scorer_mismatch_c6 c6Entry).2.1 (by decide)⟩

theorem bucketTotal_incrementType (c : IssueCount) (t : String) :
    bucketTotal (incrementType c t) =
      bucketTotal c + (if recognizedType t then 1 else 0) := by
  simp only [incrementType, recognizedType, bucketTotal]
  split_ifs with h1 h2 h3 <;> simp_all <;> omega

theorem sum_map_upsertBucket {β : Type} (g : β → Nat) (key : String)
    (f : β → β) (empty : β) (k : Nat) (hf : ∀ b, g (f b) = g b + k)
    (he : g empty = 0) (acc : List (String × β)) :
    ((upsertBucket key f empty acc).map (fun p => g p.2)).sum =
      (acc.map (fun p => g p.2)).sum + k := by
  induction acc with
  | nil => simp [upsertBucket, hf, he]
  | cons p rest ih =>
    obtain ⟨k', b⟩ := p
    by_cases hk : k' = key <;> simp [upsertBucket, hk, hf, ih] <;> omega

theorem sumNotDoneCounts_notDoneStep (acc : List (String × NotDoneBucket))
    (i : JiraIssue) :
    sumNotDoneCounts (notDoneStep acc i) =
      sumNotDoneCounts acc + (if countedIssue i then 1 else 0) := by
  cases h : dueKey i.duedate with
  | none => simp [notDoneStep, countedIssue, sumNotDoneCounts, h]
  | some d =>
    have hstep := sum_map_upsertBucket
      (fun b : NotDoneBucket => bucketTotal b.counts) d
      (fun b => { counts := incrementType b.counts i.issuetypeName
                  issues := b.issues ++ [snapshot30 i] })
      ⟨IssueCount.zero, []⟩
      (if recognizedType i.issuetypeName then 1 else 0)
      (fun b => bucketTotal_incrementType b.counts i.issuetypeName)
      (by simp [bucketTotal, IssueCount.zero]) acc
    simp [notDoneStep, countedIssue, sumNotDoneCounts, h, hstep]

theorem sumNotDoneCounts_foldl (issues : List JiraIssue) :
    ∀ acc, sumNotDoneCounts (issues.foldl notDoneStep acc) =
      sumNotDoneCounts acc + (issues.filter countedIssue).length := by
  induction issues with
  | nil => simp
  | cons i is ih =>
    intro acc
    simp only [List.foldl_cons, List.filter_cons]
    rw [ih, sumNotDoneCounts_notDoneStep]
    by_cases hc : countedIssue i <;> simp [hc] <;> omega

theorem foldl_notDoneStep_filter (issues : List JiraIssue) :
    ∀ acc, (issues.filter
        (fun i => (dueKey i.duedate).isSome)).foldl notDoneStep acc =
      issues.foldl notDoneStep acc := by
  induction issues with
  | nil => simp
  | cons i is ih =>
    intro acc
    cases h : dueKey i.duedate with
    | none => simp [List.filter_cons, h, notDoneStep, ih]
    | some d => simp [List.filter_cons, h, ih]

theorem sumDoneBuckets_doneStep (acc : List (String × DoneBucket))
    (i : JiraIssue) :
    sumDoneBuckets (doneStep acc i) =
      sumDoneBuckets acc + (if countedIssue i then 1 else 0) := by
  cases h : dueKey i.duedate with
  | none => simp [doneStep, countedIssue, sumDoneBuckets, h]
  | some d =>
    have hstep := sum_map_upsertBucket
      (fun b : DoneBucket => bucketTotal b.counts) d
      (fun b => { counts := incrementType b.counts i.issuetypeName
                  issues := b.issues ++ [snapshot30 i]
                  bugLinks := b.bugLinks +
                    (i.issuelinks.filter isBlocksBugLink).length })
      ⟨IssueCount.zero, [], 0⟩
      (if recognizedType i.issuetypeName then 1 else 0)
      (fun b => bucketTotal_incrementType b.counts i.issuetypeName)
      (by simp [bucketTotal, IssueCount.zero]) acc
    simp [doneStep, countedIssue, sumDoneBuckets, h, hstep]

theorem sumDoneBuckets_foldl (issues : List JiraIssue) :
    ∀ acc, sumDoneBuckets (issues.foldl doneStep acc) =
      sumDoneBuckets acc + (issues.filter countedIssue).length := by
  induction issues with
  | nil => simp
  | cons i is ih =>
    intro acc
    simp only [List.foldl_cons, List.filter_cons]
    rw [ih, sumDoneBuckets_doneStep]
    by_cases hc : countedIssue i <;> simp [hc] <;> omega

theorem foldl_doneStep_filter (issues : List JiraIssue) :
    ∀ acc, (issues.filter
        (fun i => (dueKey i.duedate).isSome)).foldl doneStep acc =
      issues.foldl doneStep acc := by
  induction issues with
  | nil => simp
  | cons i is ih =>
    intro acc
    cases h : dueKey i.duedate with
    | none => simp [List.filter_cons, h, doneStep, ih]
    | some d => simp [List.filter_cons, h, ih]

theorem any_throws_filter (issues : List JiraIssue) :
    (issues.filter (fun i => (dueKey i.duedate).isSome)).any
        (fun i => (dueKey i.duedate).isSome &&
          i.issuelinks.any linkAccessThrows) =
      issues.any (fun i => (dueKey i.duedate).isSome &&
        i.issuelinks.any linkAccessThrows) := by
  induction issues with
  | nil => simp
  | cons i is ih =>
    cases h : dueKey i.duedate with
    | none => simp [List.filter_cons, h, ih]
    | some d => simp [List.filter_cons, h, ih]

/-- C7: issues without a due date contribute to no count and no snapshot
list (classifying the due-dated sublist gives the same output, for both
the not-done and the 30-day done classifier), and the per-type counts
summed over all date buckets equal the number of input issues carrying a
recognized type and a due date. -/
theorem classifier_totals_c7 (issues : List JiraIssue) :
    (countNotDoneIssues
        (issues.filter (fun i => (dueKey i.duedate).isSome)) =
      countNotDoneIssues issues) ∧
    (sumNotDoneCounts (countNotDoneIssues issues) =
      (issues.filter countedIssue).length) ∧
    (countDoneIssues (issues.filter (fun i => (dueKey i.duedate).isSome)) =
      countDoneIssues issues) ∧
    (∀ res, countDoneIssues issues = .ok res →
      sumDoneCounts res = (issues.filter countedIssue).length) := by
  refine ⟨?_, ?_, ?_, ?_⟩
  · unfold countNotDoneIssues
    exact foldl_notDoneStep_filter issues []
  · unfold countNotDoneIssues
    simpa [sumNotDoneCounts] using sumNotDoneCounts_foldl issues []
  · unfold countDoneIssues
    rw [any_throws_filter, foldl_doneStep_filter]
  · intro res hres
    unfold countDoneIssues at hres
    by_cases hthrow : issues.any (fun i => (dueKey i.duedate).isSome &&
        i.issuelinks.any linkAccessThrows)
    · simp [hthrow] at hres
    · simp only [hthrow, if_false, Bool.false_eq_true, Except.ok.injEq]
        at hres
      subst hres
      have hsum := sumDoneBuckets_foldl issues []
      simp only [sumDoneBuckets] at hsum
      simpa [sumDoneCounts, List.map_map, Function.comp] using hsum

/-- C7 witness: on a list with one done Bug due 2024-10-01, one
unrecognized `Epic` the same day and one date-less Task, the done pass
succeeds; the summed counts equal the single recognized-and-dated
issue. -/
theorem classifier_totals_c7_witness :
    countDoneIssues c7List = .ok c7Res ∧
    sumDoneCounts c7Res = (c7List.filter countedIssue).length ∧
    (c7List.filter countedIssue).length = 1 :=
  ⟨rfl, (classifier_totals_c7 c7List).2.2.2 c7Res rfl, by decide⟩

theorem lkp_upsertBucket {β : Type} (key d : String) (f : β → β)
    (empty : β) (acc : List (String × β)) :
    lkp d (upsertBucket key f empty acc) =
      if key = d then some (f ((lkp d acc).getD empty)) else lkp d acc := by
  induction acc with
  | nil =>
    by_cases h : key = d <;> simp [upsertBucket, lkp, h]
  | cons p rest ih =>
    obtain ⟨k', b⟩ := p
    by_cases hk : k' = key
    · subst hk
      by_cases hd : k' = d
      · subst hd; simp [upsertBucket, lkp]
      · simp [upsertBucket, lkp, hd]
    · by_cases hd : k' = d
      · subst hd
        have hkd : ¬ key = k' := fun h => hk h.symm
        simp [upsertBucket, lkp, hk, hkd]
      · simp [upsertBucket, lkp, hk, hd, ih]

theorem linkedBugs_incrementTodayType (c : TodayCounts) (t : String) :
    (incrementTodayType c t).LinkedBugs = c.LinkedBugs := by
  simp only [incrementTodayType]
  split_ifs <;> rfl

theorem lbOf_todayDoneStep (acc : List (String × TodayBucket))
    (i : JiraIssue) (d : String) :
    lbOf (lkp d (todayDoneStep acc i)) =
      lbOf (lkp d acc) +
        (if dueKey i.duedate == some d then
          (i.issuelinks.filter hasBugEnd).length else 0) := by
  cases h : dueKey i.duedate with
  | none => simp [todayDoneStep, h]
  | some k =>
    simp only [todayDoneStep, h]
    rw [lkp_upsertBucket]
    by_cases hk : k = d
    · subst hk
      cases hacc : lkp k acc with
      | none =>
        simp [hacc, lbOf, linkedBugs_incrementTodayType, TodayCounts.zero]
      | some b =>
        simp [hacc, lbOf, linkedBugs_incrementTodayType]
    · simp [hk, lbOf, Ne.symm hk]

theorem lbOf_foldl_todayDoneStep (issues : List JiraIssue) :
    ∀ acc d, lbOf (lkp d (issues.foldl todayDoneStep acc)) =
      lbOf (lkp d acc) + perDateLinkedBugs issues d := by
  induction issues with
  | nil => simp [perDateLinkedBugs]
  | cons i is ih =>
    intro acc d
    simp only [List.foldl_cons]
    rw [ih, lbOf_todayDoneStep]
    by_cases h : dueKey i.duedate == some d <;>
      simp [perDateLinkedBugs, List.filter_cons, h] <;> omega

/-- C3 (amended): in the today-only done pass the per-date `LinkedBugs`
counter is the total number of Bug-ended links over that date's done
issues, but the stored ratio divides it by the task-and-story count of
the WHOLE combined list (`tasksWithLinkedBugsCount`), rounded to two
decimals, `0` when that list-wide count is `0`. -/
theorem today_ratio_c3_amended (issues : List JiraIssue) :
    (∀ d b, lkp d (issues.foldl todayDoneStep []) = some b →
      b.counts.LinkedBugs = perDateLinkedBugs issues d) ∧
    (∀ d c snaps r, (d, c, snaps, r) ∈ countDoneIssuesForToday issues →
      r = if 0 < tasksWithLinkedBugsCount issues then
            roundTo2 ((c.LinkedBugs : ℚ) /
              ((tasksWithLinkedBugsCount issues : ℕ) : ℚ))
          else 0) := by
  constructor
  · intro d b hb
    have h := lbOf_foldl_todayDoneStep issues [] d
    rw [hb] at h
    simpa [lbOf, lkp] using h
  · intro d c snaps r hr
    simp only [countDoneIssuesForToday, List.mem_map] at hr
    obtain ⟨p, hp, heq⟩ := hr
    simp only [Prod.mk.injEq] at heq
    obtain ⟨h1, h2, h3, h4⟩ := heq
    subst h2
    exact h4.symm

/-- C3 amended witness: for the two-date list `c3List`, the 2024-10-01
bucket records exactly that date's one linked bug, and its stored ratio
is the claimed function of the list-wide task-and-story count. -/
theorem today_ratio_c3_amended_witness :
    (lkp "2024-10-01" (c3List.foldl todayDoneStep []) = some c3BucketA) ∧
    c3BucketA.counts.LinkedBugs = perDateLinkedBugs c3List "2024-10-01" ∧
    c3StoredRatio =
      (if 0 < tasksWithLinkedBugsCount c3List then
        roundTo2 ((c3BucketA.counts.LinkedBugs : ℚ) /
          ((tasksWithLinkedBugsCount c3List : ℕ) : ℚ))
      else 0) :=
  ⟨by decide,
    (today_ratio_c3_amended c3List).1 "2024-10-01" c3BucketA (by decide),
    (today_ratio_c3_amended c3List).2 "2024-10-01" c3BucketA.counts
      c3BucketA.issues c3StoredRatio (List.mem_cons_self _ _)⟩

/-- C3 counterexample: on a combined done list spanning two dates, each
with one bug-linked Task, the pass stores ratio `round(1/2) = 0.5` for
2024-10-01, while the claim's per-date formula demands
`round(linkedBugsCount/taskAndStoryCount) = round(1/1) = 1` there: the
code divides by the list-wide count 2, not the per-date count 1. -/
theorem today_ratio_counterexample_c3 :
    countDoneIssuesForToday c3List =
      [("2024-10-01", ⟨1, 0, 0, 1⟩, [snapshotToday c3IssueA "2024-10-01"],
         roundTo2 (((1 : ℕ) : ℚ) / ((2 : ℕ) : ℚ))),
       ("2024-10-02", ⟨1, 0, 0, 1⟩, [snapshotToday c3IssueB "2024-10-02"],
         roundTo2 (((1 : ℕ) : ℚ) / ((2 : ℕ) : ℚ)))] ∧
    claimTaskAndStoryCount c3List "2024-10-01" = 1 ∧
    perDateLinkedBugs c3List "2024-10-01" = 1 ∧
    roundTo2 (((1 : ℕ) : ℚ) / ((2 : ℕ) : ℚ)) ≠
      roundTo2 (((1 : ℕ) : ℚ) / ((1 : ℕ) : ℚ)) := by
  refine ⟨rfl, by decide, by decide, ?_⟩
  have h1 : roundTo2 (((1 : ℕ) : ℚ) / ((2 : ℕ) : ℚ)) = 1 / 2 := by
    norm_num [roundTo2, round_eq]
  have h2 : roundTo2 (((1 : ℕ) : ℚ) / ((1 : ℕ) : ℚ)) = 1 := by
    norm_num [roundTo2, round_eq]
  rw [h1, h2]
  norm_num

/-- C4: evaluating the 30-day done pass at the failing input — a done
Task whose single `Blocks` link has its Bug at the inward end and no
outward target — aborts the whole pass with the internal error instead of
skipping the link; a `Blocks` link with a non-Bug outward target and a
non-`Blocks` link with a Bug outward target are, as the claim says,
simply not counted. -/
theorem done_pass_blocks_crash_c4 :
    countDoneIssues [c4BadIssue] =
      .error "Error fetching done issues from Jira" ∧
    countDoneIssues [c4OkIssue] =
      .ok [("2024-10-01", ⟨⟨0, 1, 0⟩, [snapshot30 c4OkIssue], 0⟩, 0)] :=
  ⟨rfl, rfl⟩

/-- C8: shard A's success is returned as-is whatever B would answer; a
404 from A falls back to B (success, 404→not found, 400→invalid
identifier); a 400 from A is an invalid-identifier failure whatever B
would answer; any other failure from A is a terminal internal error whose
value does not depend on B's response at all. -/
theorem shard_fallback_c8 {α : Type} (d : α)
    (response2 : ShardResponse α) :
    (getUserDetails (.ok d) response2 = .ok d) ∧
    (getUserDetails (α := α) (.err (some 404)) (.ok d) = .ok d) ∧
    (getUserDetails (α := α) (.err (some 404)) (.err (some 404)) =
      .notFound "User not found on both URLs") ∧
    (getUserDetails (α := α) (.err (some 400)) response2 =
      .badRequest "Invalid accountId") ∧
    (getUserDetails (α := α) (.err (some 404)) (.err (some 400)) =
      .badRequest "Invalid accountId") ∧
    (∀ s : Option Nat, s ≠ some 404 → s ≠ some 400 →
      getUserDetails (α := α) (.err s) response2 =
        .internalError
          "Error fetching user details from the first Jira URL") := by
  refine ⟨rfl, rfl, rfl, rfl, rfl, ?_⟩
  intro s h404 h400
  simp [getUserDetails, h404, h400]

/-- C8 witness: a 500 from shard A is a terminal internal error even when
shard B would have answered 404. -/
theorem shard_fallback_c8_witness :
    (some 500 ≠ (some 404 : Option Nat)) ∧
    (some 500 ≠ (some 400 : Option Nat)) ∧
    getUserDetails (α := String) (.err (some 500)) (.err (some 404)) =
      .internalError
        "Error fetching user details from the first Jira URL" :=
  ⟨by decide, by decide,
    (shard_fallback_c8 "user" (ShardResponse.err (some 404))).2.2.2.2.2
      (some 500) (by decide) (by decide)⟩

end TeamManagement
